import Mathlib

/-!
Shallow embedding of `packages/millicast-sdk-js/src/MillicastSignaling.js`.

The class `MillicastSignaling` owns a WebSocket (`this.webSocket`) and a
`TransactionManager` (`this.transactionManager`) bound to it, and exposes
`connect`, `close`, `subscribe` and `publish`.  We model:

* the session object as a structure whose fields are the instance fields of
  the class (`webSocket` and `transactionManager` as `Option`s, since the
  code stores `null` in them);
* each operation as a pure function returning the new session state, the
  list of observable effects it performs (constructor calls, field
  assignments, handler registrations, notification emissions, transport
  close requests, executor commands) in the order the code performs them,
  and its result;
* the `onopen` / `onclose` callbacks installed by `connect` as standalone
  step functions acting on the current session state — exactly like the
  JS closures, which capture `this` (the session), never the particular
  socket they were installed on;
* the parts of the environment the code only observes (the id of a freshly
  constructed socket, the readiness state the transport reports, the
  command executor's response) as explicit oracle arguments.

WebSocket readiness constants follow the platform: CONNECTING = 0,
OPEN = 1, CLOSING = 2, CLOSED = 3.
-/

/-- A WebSocket handle: an identity (so that distinct `new WebSocket(url)`
calls yield distinct physical transports) and its current readiness state. -/
structure WebSocket where
  id : Nat
  readyState : Nat
deriving DecidableEq, Repr

/-- Readiness constant `WebSocket.CONNECTING`. -/
def WebSocket.CONNECTING : Nat := 0

/-- Readiness constant `WebSocket.OPEN`. -/
def WebSocket.OPEN : Nat := 1

/-- Readiness constant `WebSocket.CLOSING`. -/
def WebSocket.CLOSING : Nat := 2

/-- Readiness constant `WebSocket.CLOSED`. -/
def WebSocket.CLOSED : Nat := 3

/-- A `TransactionManager` handle, bound to the socket it was constructed on
(`new TransactionManager(this.webSocket)`). -/
structure TransactionManager where
  socketId : Nat
deriving DecidableEq, Repr

/-- The session object: the instance fields set by the constructor. -/
structure MillicastSignaling where
  webSocket : Option WebSocket
  transactionManager : Option TransactionManager
  streamName : Option String
  wsUrl : String
deriving DecidableEq, Repr

/-- The constructor: both handles start `null`; `streamName` and `url` are
copied from the options object. -/
def MillicastSignaling.new (streamName : Option String) (url : String) :
    MillicastSignaling :=
  { webSocket := none
    transactionManager := none
    streamName := streamName
    wsUrl := url }

/-- Payload of the `"view"` command: `\x7b sdp, streamId: this.streamName \x7d`. -/
structure ViewData where
  sdp : String
  streamId : Option String
deriving DecidableEq, Repr

/-- Payload of the `"publish"` command:
`\x7b name: this.streamName, sdp, codec: 'h264' \x7d`. -/
structure PublishData where
  name : Option String
  sdp : String
  codec : String
deriving DecidableEq, Repr

/-- The payload handed to `transactionManager.cmd`. -/
inductive CmdData where
  | view (d : ViewData)
  | publishData (d : PublishData)
deriving DecidableEq, Repr

/-- Session-level notifications emitted through `this.emit`. -/
inductive Notification where
  | connectionSuccess (ws : WebSocket) (tm : TransactionManager)
  | connectionError (state : Nat)
  | connectionClose
deriving DecidableEq, Repr

/-- Observable effects of an operation, in program order. -/
inductive Effect where
  | newWebSocketEff (url : String) (id : Nat)
  | newTransactionManagerEff (socketId : Nat)
  | assignWebSocket (ws : Option WebSocket)
  | assignTransactionManager (tm : Option TransactionManager)
  | setOnopen (socketId : Nat)
  | setOnclose (socketId : Nat)
  | tmOnEvent (socketId : Nat)
  | emit (n : Notification)
  | wsCloseReq (socketId : Nat)
  | cmd (name : String) (data : CmdData)
deriving DecidableEq, Repr

/-- Errors a session operation can surface: the `\x7b state \x7d` object
built in the `onopen` handler, an opaque error from the command executor
(tagged so distinct error values stay distinct), or a null dereference. -/
inductive JsError where
  | connectionStateError (state : Nat)
  | executorError (tag : Nat)
  | typeErr
deriving DecidableEq, Repr

/-- The executor's response payload; `subscribe` / `publish` read its `sdp`
field, any other content is abstracted by `tag`. -/
structure CmdResponse where
  sdp : String
  tag : Nat
deriving DecidableEq, Repr

/-- Synchronous outcome of `connect`: either the fast path returned the
existing socket (the async function's promise resolves at once), or a fresh
socket was created and the returned promise is still pending, to be settled
by the `onopen` handler. -/
inductive ConnectSync where
  | fastPath (ws : WebSocket)
  | pending
deriving DecidableEq, Repr

/-- How the `onopen` handler settles the pending `connect` promise.  The
handler calls `reject` first on a bad readiness state and `resolve`
unconditionally afterwards; a promise keeps its first settlement, so the
rejection wins.  `threw` models the TypeError a null dereference would
raise. -/
inductive OpenResult where
  | resolved (ws : WebSocket)
  | rejected (state : Nat)
  | threw
deriving DecidableEq, Repr

/-- The fast-path guard of `connect`:
`this.transactionManager && this.webSocket?.readyState === WebSocket.OPEN`.
Returns the two handles when the guard holds. -/
def MillicastSignaling.fastPathCheck (s : MillicastSignaling) :
    Option (WebSocket × TransactionManager) :=
  match s.transactionManager, s.webSocket with
  | some tm, some ws =>
      if ws.readyState == WebSocket.OPEN then some (ws, tm) else none
  | _, _ => none

/-- `connect(url)` up to its suspension point.  On the fast path it emits
`connectionSuccess` with the existing handles and returns the existing
socket.  Otherwise it constructs `new WebSocket(url)` (identity `freshId`,
readiness CONNECTING) and `new TransactionManager(this.webSocket)`, stores
both in the instance fields, installs the `onopen` and `onclose` handlers
on the new socket, and leaves the promise pending. -/
def MillicastSignaling.connect (s : MillicastSignaling) (url : String)
    (freshId : Nat) : MillicastSignaling × List Effect × ConnectSync :=
  match s.fastPathCheck with
  | some (ws, tm) =>
      (s, [.emit (.connectionSuccess ws tm)], .fastPath ws)
  | none =>
      let sock : WebSocket := { id := freshId, readyState := WebSocket.CONNECTING }
      let tm : TransactionManager := { socketId := freshId }
      ({ s with webSocket := some sock, transactionManager := some tm },
       [.newWebSocketEff url freshId, .assignWebSocket (some sock),
        .newTransactionManagerEff freshId, .assignTransactionManager (some tm),
        .setOnopen freshId, .setOnclose freshId],
       .pending)

/-- Environment step: the browser moves the current socket to readiness
state `st` (the session code never does this itself). -/
def MillicastSignaling.setSocketState (s : MillicastSignaling) (st : Nat) :
    MillicastSignaling :=
  match s.webSocket with
  | some ws => { s with webSocket := some { ws with readyState := st } }
  | none => s

/-- The `onopen` handler installed by `connect`.  It reads
`this.webSocket.readyState`; when it is not OPEN it builds the error object,
emits `connectionError` and rejects the promise — and then, the `if` block
having no `return`, FALLS THROUGH to register the executor's event
passthrough, emit `connectionSuccess` and call `resolve` (a no-op on the
already-rejected promise). -/
def MillicastSignaling.wsOnopen (s : MillicastSignaling) :
    MillicastSignaling × List Effect × OpenResult :=
  match s.webSocket, s.transactionManager with
  | some ws, some tm =>
      let badState : Bool := ws.readyState != WebSocket.OPEN
      let headEffs : List Effect :=
        if badState then [.emit (.connectionError ws.readyState)] else []
      let settled : OpenResult :=
        if badState then .rejected ws.readyState else .resolved ws
      (s, headEffs ++ [.tmOnEvent tm.socketId, .emit (.connectionSuccess ws tm)],
       settled)
  | _, _ => (s, [], .threw)

/-- The `onclose` handler installed by `connect`: a closure over `this`
only, so whichever socket it was installed on, firing it nulls the
session's CURRENT fields and emits a single `connectionClose`. -/
def MillicastSignaling.wsOnclose (s : MillicastSignaling) :
    MillicastSignaling × List Effect :=
  ({ s with webSocket := none, transactionManager := none },
   [.assignWebSocket none, .assignTransactionManager none,
    .emit .connectionClose])

/-- `close()`: requests transport close on the current socket when one
exists, otherwise does nothing; it never touches the instance fields. -/
def MillicastSignaling.close (s : MillicastSignaling) :
    MillicastSignaling × List Effect :=
  match s.webSocket with
  | some ws => (s, [.wsCloseReq ws.id])
  | none => (s, [])

/-- The connect-if-needed guard shared by `subscribe` and `publish`:
`!this.webSocket || this.webSocket.readyState !== WebSocket.OPEN`. -/
def MillicastSignaling.needsConnect (s : MillicastSignaling) : Bool :=
  match s.webSocket with
  | none => true
  | some ws => ws.readyState != WebSocket.OPEN

/-- The `await this.connect(this.wsUrl)` phase of `subscribe` / `publish`
when the guard fires, composed with the transport reporting readiness
`openedState` and the `onopen` handler settling the promise.  Returns the
session state, the effects so far, and the error the `await` threw, if
any. -/
def MillicastSignaling.connectAwait (s : MillicastSignaling) (freshId : Nat)
    (openedState : Nat) : MillicastSignaling × List Effect × Option JsError :=
  match s.connect s.wsUrl freshId with
  | (s1, effs1, .fastPath _) => (s1, effs1, none)
  | (s1, effs1, .pending) =>
      let s2 := s1.setSocketState openedState
      match s2.wsOnopen with
      | (s3, effs2, .resolved _) => (s3, effs1 ++ effs2, none)
      | (s3, effs2, .rejected st) =>
          (s3, effs1 ++ effs2, some (.connectionStateError st))
      | (s3, effs2, .threw) => (s3, effs1 ++ effs2, some .typeErr)

/-- Issue one executor command and unwrap the response, mirroring
`const result = await this.transactionManager.cmd(name, data); return
result.sdp` inside the `try`; the `catch` rethrows the error unchanged. -/
def MillicastSignaling.runCmd (s : MillicastSignaling) (effs : List Effect)
    (name : String) (data : CmdData)
    (cmdOutcome : Except JsError CmdResponse) :
    MillicastSignaling × List Effect × Except JsError String :=
  match s.transactionManager with
  | none => (s, effs, .error .typeErr)
  | some _ =>
      match cmdOutcome with
      | .ok result => (s, effs ++ [.cmd name data], .ok result.sdp)
      | .error e => (s, effs ++ [.cmd name data], .error e)

/-- `subscribe(sdp)`: builds `\x7b sdp, streamId: this.streamName \x7d`,
connects first when the guard fires, then issues the single `"view"`
command and returns the response's `sdp` field; every error is rethrown
unchanged. -/
def MillicastSignaling.subscribe (s : MillicastSignaling) (sdp : String)
    (freshId : Nat) (openedState : Nat)
    (cmdOutcome : Except JsError CmdResponse) :
    MillicastSignaling × List Effect × Except JsError String :=
  let data : ViewData := { sdp := sdp, streamId := s.streamName }
  if s.needsConnect then
    match s.connectAwait freshId openedState with
    | (s1, effs, none) => s1.runCmd effs "view" (.view data) cmdOutcome
    | (s1, effs, some e) => (s1, effs, .error e)
  else
    s.runCmd [] "view" (.view data) cmdOutcome

/-- `publish(sdp)`: builds
`\x7b name: this.streamName, sdp, codec: 'h264' \x7d`, connects first when
the guard fires, then issues the single `"publish"` command and returns the
response's `sdp` field; every error is rethrown unchanged. -/
def MillicastSignaling.publish (s : MillicastSignaling) (sdp : String)
    (freshId : Nat) (openedState : Nat)
    (cmdOutcome : Except JsError CmdResponse) :
    MillicastSignaling × List Effect × Except JsError String :=
  let data : PublishData := { name := s.streamName, sdp := sdp, codec := "h264" }
  if s.needsConnect then
    match s.connectAwait freshId openedState with
    | (s1, effs, none) => s1.runCmd effs "publish" (.publishData data) cmdOutcome
    | (s1, effs, some e) => (s1, effs, .error e)
  else
    s.runCmd [] "publish" (.publishData data) cmdOutcome

/-- One observable step in a session's lifetime: an operation called by the
embedding application, a transport callback firing, or the environment
moving the socket's readiness state. -/
inductive Step where
  | connectOp (url : String) (freshId : Nat)
  | fireOnopen
  | fireOnclose
  | closeOp
  | subscribeOp (sdp : String) (freshId : Nat) (openedState : Nat)
      (cmdOutcome : Except JsError CmdResponse)
  | publishOp (sdp : String) (freshId : Nat) (openedState : Nat)
      (cmdOutcome : Except JsError CmdResponse)
  | extReadyState (st : Nat)
deriving Repr

/-- The state component of one step. -/
def MillicastSignaling.applyStep (s : MillicastSignaling) : Step → MillicastSignaling
  | .connectOp url freshId => (s.connect url freshId).1
  | .fireOnopen => s.wsOnopen.1
  | .fireOnclose => s.wsOnclose.1
  | .closeOp => s.close.1
  | .subscribeOp sdp freshId openedState co => (s.subscribe sdp freshId openedState co).1
  | .publishOp sdp freshId openedState co => (s.publish sdp freshId openedState co).1
  | .extReadyState st => s.setSocketState st

/-- Run a list of steps from a state. -/
def MillicastSignaling.runSteps (s : MillicastSignaling) : List Step → MillicastSignaling
  | [] => s
  | st :: rest => (s.applyStep st).runSteps rest

/-- The two handles are present or absent together. -/
def MillicastSignaling.handlesTogether (s : MillicastSignaling) : Prop :=
  s.webSocket.isSome = s.transactionManager.isSome

instance (s : MillicastSignaling) : Decidable s.handlesTogether := by
  unfold MillicastSignaling.handlesTogether
  infer_instance

/-- The notifications carried by an effect trace, in order. -/
def emittedOf : List Effect → List Notification
  | [] => []
  | .emit n :: rest => n :: emittedOf rest
  | _ :: rest => emittedOf rest

/-- Is this effect an executor command? -/
def Effect.isCmd : Effect → Bool
  | .cmd _ _ => true
  | _ => false

/-- Is this effect a transport close request? -/
def Effect.isCloseReq : Effect → Bool
  | .wsCloseReq _ => true
  | _ => false

/-- A session holding an established connection: socket 7 is OPEN and the
executor is bound to it. -/
def connectedSession : MillicastSignaling :=
  { webSocket := some { id := 7, readyState := WebSocket.OPEN }
    transactionManager := some { socketId := 7 }
    streamName := some "cam1"
    wsUrl := "ws://host/ws" }

/-- A session as the constructor leaves it. -/
def freshSession : MillicastSignaling :=
  MillicastSignaling.new (some "cam1") "ws://host/ws"

/-- A session with a connection attempt in flight: socket 0 is still
CONNECTING, the executor is bound to it. -/
def connectingSession : MillicastSignaling :=
  { webSocket := some { id := 0, readyState := WebSocket.CONNECTING }
    transactionManager := some { socketId := 0 }
    streamName := some "cam1"
    wsUrl := "ws://host/ws" }

/-- A fresh session right after `connect` created socket 0, at the moment
the transport reports open while the socket has already moved to CLOSING. -/
def c1Session : MillicastSignaling :=
  (((MillicastSignaling.new (some "cam1") "ws://host/ws").connect
      "ws://host/ws" 0).1).setSocketState WebSocket.CLOSING

theorem fastPathCheck_eq_some (s : MillicastSignaling) (ws : WebSocket)
    (tm : TransactionManager) (h : s.fastPathCheck = some (ws, tm)) :
    s.webSocket = some ws ∧ s.transactionManager = some tm ∧
      ws.readyState = WebSocket.OPEN := by
  unfold MillicastSignaling.fastPathCheck at h
  cases htm : s.transactionManager <;> rw [htm] at h <;>
    cases hw : s.webSocket <;> rw [hw] at h <;> simp_all
  obtain ⟨h1, rfl, rfl⟩ := h
  exact h1

theorem fastPathCheck_of_open (s : MillicastSignaling) (ws : WebSocket)
    (tm : TransactionManager) (hw : s.webSocket = some ws)
    (htm : s.transactionManager = some tm)
    (hr : ws.readyState = WebSocket.OPEN) :
    s.fastPathCheck = some (ws, tm) := by
  unfold MillicastSignaling.fastPathCheck
  rw [htm, hw]
  simp [hr]

theorem fastPathCheck_none_of_needsConnect (s : MillicastSignaling)
    (h : s.needsConnect = true) : s.fastPathCheck = none := by
  unfold MillicastSignaling.needsConnect at h
  unfold MillicastSignaling.fastPathCheck
  cases htm : s.transactionManager <;> cases hw : s.webSocket <;>
    rw [hw] at h <;> simp_all

theorem fastPathCheck_none_of_not_open (s : MillicastSignaling)
    (ws : WebSocket) (hw : s.webSocket = some ws)
    (hr : ws.readyState ≠ WebSocket.OPEN) : s.fastPathCheck = none := by
  unfold MillicastSignaling.fastPathCheck
  cases htm : s.transactionManager <;> rw [hw] <;> simp [hr]

theorem connect_fastPath (s : MillicastSignaling) (url : String) (fid : Nat)
    (ws : WebSocket) (tm : TransactionManager)
    (h : s.fastPathCheck = some (ws, tm)) :
    s.connect url fid = (s, [.emit (.connectionSuccess ws tm)], .fastPath ws) := by
  simp [MillicastSignaling.connect, h]

theorem connect_pending (s : MillicastSignaling) (url : String) (fid : Nat)
    (h : s.fastPathCheck = none) :
    s.connect url fid =
      ({ s with webSocket := some { id := fid, readyState := WebSocket.CONNECTING },
                transactionManager := some { socketId := fid } },
       [.newWebSocketEff url fid,
        .assignWebSocket (some { id := fid, readyState := WebSocket.CONNECTING }),
        .newTransactionManagerEff fid,
        .assignTransactionManager (some { socketId := fid }),
        .setOnopen fid, .setOnclose fid],
       .pending) := by
  simp [MillicastSignaling.connect, h]

/-- C2: while the executor is present and the socket is OPEN, `connect`
returns the existing socket, emits `connectionSuccess` with the existing
handles, performs no other effect (in particular constructs no new socket
and no new executor), and leaves the session untouched, so a second
`connect` resolves with the very same handle. -/
theorem C2_fast_path_idempotent (s : MillicastSignaling) (url url2 : String)
    (fid fid2 : Nat) (ws : WebSocket) (tm : TransactionManager)
    (hws : s.webSocket = some ws) (htm : s.transactionManager = some tm)
    (hopen : ws.readyState = WebSocket.OPEN) :
    s.connect url fid = (s, [.emit (.connectionSuccess ws tm)], .fastPath ws) ∧
    (s.connect url fid).1.connect url2 fid2 =
      (s, [.emit (.connectionSuccess ws tm)], .fastPath ws) := by
  have hchk := fastPathCheck_of_open s ws tm hws htm hopen
  have h1 := connect_fastPath s url fid ws tm hchk
  have h2 := connect_fastPath s url2 fid2 ws tm hchk
  refine ⟨h1, ?_⟩
  rw [h1]
  exact h2

/-- Witness for C2 at a concrete connected session. -/
theorem C2_fast_path_idempotent_witness :
    connectedSession.connect "ws://host/ws" 9 =
      (connectedSession,
       [.emit (.connectionSuccess { id := 7, readyState := WebSocket.OPEN }
          { socketId := 7 })],
       .fastPath { id := 7, readyState := WebSocket.OPEN }) ∧
    (connectedSession.connect "ws://host/ws" 9).1.connect "ws://other" 10 =
      (connectedSession,
       [.emit (.connectionSuccess { id := 7, readyState := WebSocket.OPEN }
          { socketId := 7 })],
       .fastPath { id := 7, readyState := WebSocket.OPEN }) :=
  C2_fast_path_idempotent connectedSession "ws://host/ws" "ws://other" 9 10
    { id := 7, readyState := WebSocket.OPEN } { socketId := 7 } rfl rfl rfl

/-- C9: `close()` is total, never modifies the session fields, requests a
transport close of the current socket when one exists, and is a no-op when
none does. -/
theorem C9_close_never_throws (s : MillicastSignaling) :
    s.close.1 = s ∧
    (∀ ws : WebSocket, s.webSocket = some ws → s.close.2 = [.wsCloseReq ws.id]) ∧
    (s.webSocket = none → s.close.2 = []) := by
  refine ⟨?_, ?_, ?_⟩ <;> cases hw : s.webSocket <;>
    simp_all [MillicastSignaling.close]

/-- Witness for C9 at a concrete connected session. -/
theorem C9_close_never_throws_witness :
    connectedSession.close.1 = connectedSession ∧
    connectedSession.close.2 = [.wsCloseReq 7] := by
  have h := C9_close_never_throws connectedSession
  exact ⟨h.1, h.2.1 { id := 7, readyState := WebSocket.OPEN } rfl⟩

/-- C1: what the code actually does when the transport reports open while
the socket's readiness state is CLOSING.  The handler does emit
`connectionError` with the observed state and the promise does reject with
that error, as the claim says; but the `if` block has no `return`, so the
handler falls through and ALSO emits `connectionSuccess` for that same
open — contradicting the claim's last conjunct (and the code's own
documentation of `connectionSuccess`). -/
theorem C1_bad_open_also_emits_success :
    c1Session.wsOnopen.2.2 = .rejected WebSocket.CLOSING ∧
    emittedOf c1Session.wsOnopen.2.1 =
      [.connectionError WebSocket.CLOSING,
       .connectionSuccess { id := 0, readyState := WebSocket.CLOSING }
         { socketId := 0 }] := by
  decide

/-- C3, counterexample: with a connection attempt still in flight (socket 0
is CONNECTING), a second `connect` call is not serialized onto it — it
constructs a second physical transport (socket 1) and overwrites the
session's handles with it. -/
theorem C3_counterexample :
    Effect.newWebSocketEff "ws://host/ws" 1 ∈
      (connectingSession.connect "ws://host/ws" 1).2.1 ∧
    (connectingSession.connect "ws://host/ws" 1).1.webSocket =
      some { id := 1, readyState := WebSocket.CONNECTING } := by
  decide

/-- C3, amended: a `connect` call made while the current socket exists but
is not OPEN (in particular while a previous attempt is still CONNECTING)
always constructs a fresh socket and a fresh executor and overwrites the
session's handles with them; only calls made while the socket is OPEN with
an executor present are deduplicated onto the existing connection. -/
theorem C3_amended_connect_while_connecting_spawns_transport
    (s : MillicastSignaling) (url : String) (fid : Nat) (ws : WebSocket)
    (hws : s.webSocket = some ws) (hconn : ws.readyState ≠ WebSocket.OPEN) :
    (s.connect url fid).2.2 = .pending ∧
    Effect.newWebSocketEff url fid ∈ (s.connect url fid).2.1 ∧
    Effect.newTransactionManagerEff fid ∈ (s.connect url fid).2.1 ∧
    (s.connect url fid).1.webSocket =
      some { id := fid, readyState := WebSocket.CONNECTING } ∧
    (s.connect url fid).1.transactionManager = some { socketId := fid } := by
  have h := fastPathCheck_none_of_not_open s ws hws hconn
  rw [connect_pending s url fid h]
  refine ⟨rfl, ?_, ?_, rfl, rfl⟩ <;> simp

/-- Witness for the amended C3 at the concrete in-flight session. -/
theorem C3_amended_witness :
    (connectingSession.connect "ws://host/ws" 1).2.2 = .pending ∧
    Effect.newWebSocketEff "ws://host/ws" 1 ∈
      (connectingSession.connect "ws://host/ws" 1).2.1 ∧
    Effect.newTransactionManagerEff 1 ∈
      (connectingSession.connect "ws://host/ws" 1).2.1 ∧
    (connectingSession.connect "ws://host/ws" 1).1.webSocket =
      some { id := 1, readyState := WebSocket.CONNECTING } ∧
    (connectingSession.connect "ws://host/ws" 1).1.transactionManager =
      some { socketId := 1 } :=
  C3_amended_connect_while_connecting_spawns_transport connectingSession
    "ws://host/ws" 1 { id := 0, readyState := WebSocket.CONNECTING } rfl
    (by decide)

/-- C10: a `connect` call made while a socket exists but the fast-path
guard fails replaces both handles with freshly constructed ones (a socket
with the fresh identity, so no longer the previous one) while requesting no
transport close of the previous socket; and the `onclose` handler — the
same session-closure whichever socket it was installed on — when it later
fires on any session state, nulls the CURRENT `webSocket` and
`transactionManager` fields and emits `connectionClose`, even when those
fields hold the newer connection. -/
theorem C10_stale_onclose_clears_current_handles
    (s : MillicastSignaling) (url : String) (fid : Nat) (ws : WebSocket)
    (hws : s.webSocket = some ws) (hguard : s.fastPathCheck = none)
    (hfresh : fid ≠ ws.id) :
    (s.connect url fid).1.webSocket =
      some { id := fid, readyState := WebSocket.CONNECTING } ∧
    (s.connect url fid).1.transactionManager = some { socketId := fid } ∧
    (s.connect url fid).1.webSocket ≠ some ws ∧
    (s.connect url fid).2.1.filter Effect.isCloseReq = [] ∧
    (∀ s' : MillicastSignaling,
      s'.wsOnclose.1.webSocket = none ∧
      s'.wsOnclose.1.transactionManager = none ∧
      emittedOf s'.wsOnclose.2 = [.connectionClose]) := by
  rw [connect_pending s url fid hguard]
  refine ⟨rfl, rfl, ?_, by simp [Effect.isCloseReq], ?_⟩
  · intro hcontra
    have : ({ id := fid, readyState := WebSocket.CONNECTING } : WebSocket) = ws :=
      Option.some_injective _ hcontra
    exact hfresh (congrArg WebSocket.id this)
  · intro s'
    exact ⟨rfl, rfl, rfl⟩

/-- Witness for C10 at the concrete in-flight session. -/
theorem C10_stale_onclose_clears_current_handles_witness :
    (connectingSession.connect "ws://elsewhere" 1).1.webSocket =
      some { id := 1, readyState := WebSocket.CONNECTING } ∧
    (connectingSession.connect "ws://elsewhere" 1).1.transactionManager =
      some { socketId := 1 } ∧
    (connectingSession.connect "ws://elsewhere" 1).1.webSocket ≠
      some { id := 0, readyState := WebSocket.CONNECTING } ∧
    (connectingSession.connect "ws://elsewhere" 1).2.1.filter
      Effect.isCloseReq = [] ∧
    (∀ s' : MillicastSignaling,
      s'.wsOnclose.1.webSocket = none ∧
      s'.wsOnclose.1.transactionManager = none ∧
      emittedOf s'.wsOnclose.2 = [.connectionClose]) :=
  C10_stale_onclose_clears_current_handles connectingSession "ws://elsewhere"
    1 { id := 0, readyState := WebSocket.CONNECTING } rfl
    (fastPathCheck_none_of_not_open connectingSession
      { id := 0, readyState := WebSocket.CONNECTING } rfl (by decide))
    (by decide)

theorem wsOnopen_fst (s : MillicastSignaling) : s.wsOnopen.1 = s := by
  unfold MillicastSignaling.wsOnopen
  cases hw : s.webSocket <;> cases htm : s.transactionManager <;> rfl

theorem close_fst (s : MillicastSignaling) : s.close.1 = s := by
  unfold MillicastSignaling.close
  cases hw : s.webSocket <;> rfl

theorem runCmd_fst (s : MillicastSignaling) (effs : List Effect)
    (cmdName : String) (data : CmdData) (co : Except JsError CmdResponse) :
    (s.runCmd effs cmdName data co).1 = s := by
  unfold MillicastSignaling.runCmd
  cases htm : s.transactionManager <;> cases co <;> rfl

theorem connectAwait_fastPath (s : MillicastSignaling) (fid st : Nat)
    (ws : WebSocket) (tm : TransactionManager)
    (h : s.fastPathCheck = some (ws, tm)) :
    s.connectAwait fid st = (s, [.emit (.connectionSuccess ws tm)], none) := by
  unfold MillicastSignaling.connectAwait
  rw [connect_fastPath s s.wsUrl fid ws tm h]

theorem connectAwait_good (s : MillicastSignaling) (fid : Nat)
    (h : s.fastPathCheck = none) :
    s.connectAwait fid WebSocket.OPEN =
      ({ s with webSocket := some { id := fid, readyState := WebSocket.OPEN },
                transactionManager := some { socketId := fid } },
       [.newWebSocketEff s.wsUrl fid,
        .assignWebSocket (some { id := fid, readyState := WebSocket.CONNECTING }),
        .newTransactionManagerEff fid,
        .assignTransactionManager (some { socketId := fid }),
        .setOnopen fid, .setOnclose fid,
        .tmOnEvent fid,
        .emit (.connectionSuccess { id := fid, readyState := WebSocket.OPEN }
          { socketId := fid })],
       none) := by
  unfold MillicastSignaling.connectAwait
  rw [connect_pending s s.wsUrl fid h]
  simp [MillicastSignaling.setSocketState, MillicastSignaling.wsOnopen]

theorem connectAwait_bad (s : MillicastSignaling) (fid st : Nat)
    (h : s.fastPathCheck = none) (hst : st ≠ WebSocket.OPEN) :
    s.connectAwait fid st =
      ({ s with webSocket := some { id := fid, readyState := st },
                transactionManager := some { socketId := fid } },
       [.newWebSocketEff s.wsUrl fid,
        .assignWebSocket (some { id := fid, readyState := WebSocket.CONNECTING }),
        .newTransactionManagerEff fid,
        .assignTransactionManager (some { socketId := fid }),
        .setOnopen fid, .setOnclose fid,
        .emit (.connectionError st), .tmOnEvent fid,
        .emit (.connectionSuccess { id := fid, readyState := st }
          { socketId := fid })],
       some (.connectionStateError st)) := by
  unfold MillicastSignaling.connectAwait
  rw [connect_pending s s.wsUrl fid h]
  simp [MillicastSignaling.setSocketState, MillicastSignaling.wsOnopen, hst]

theorem connectAwait_fst_handles (s : MillicastSignaling) (fid st : Nat) :
    ((s.connectAwait fid st).1).webSocket.isSome = true ∧
    ((s.connectAwait fid st).1).transactionManager.isSome = true := by
  cases hc : s.fastPathCheck with
  | some p =>
      obtain ⟨ws, tm⟩ := p
      obtain ⟨hw, htm, _⟩ := fastPathCheck_eq_some s ws tm hc
      rw [connectAwait_fastPath s fid st ws tm hc]
      simp [hw, htm]
  | none =>
      by_cases hst : st = WebSocket.OPEN
      · subst hst
        rw [connectAwait_good s fid hc]
        simp
      · rw [connectAwait_bad s fid st hc hst]
        simp

theorem needsConnect_false_isSome (s : MillicastSignaling)
    (h : s.needsConnect = false) : s.webSocket.isSome = true := by
  unfold MillicastSignaling.needsConnect at h
  cases hw : s.webSocket <;> rw [hw] at h <;> simp_all

theorem subscribe_fst_cases (s : MillicastSignaling) (sdp : String)
    (fid st : Nat) (co : Except JsError CmdResponse) :
    (s.subscribe sdp fid st co).1 =
      if s.needsConnect then (s.connectAwait fid st).1 else s := by
  unfold MillicastSignaling.subscribe
  cases hn : s.needsConnect with
  | false => simp [hn, runCmd_fst]
  | true =>
      rcases hca : s.connectAwait fid st with ⟨s1, effs, oe⟩
      cases oe <;> simp [hn, hca, runCmd_fst]

theorem publish_fst_cases (s : MillicastSignaling) (sdp : String)
    (fid st : Nat) (co : Except JsError CmdResponse) :
    (s.publish sdp fid st co).1 =
      if s.needsConnect then (s.connectAwait fid st).1 else s := by
  unfold MillicastSignaling.publish
  cases hn : s.needsConnect with
  | false => simp [hn, runCmd_fst]
  | true =>
      rcases hca : s.connectAwait fid st with ⟨s1, effs, oe⟩
      cases oe <;> simp [hn, hca, runCmd_fst]

theorem subscribe_fst_webSocket_isSome (s : MillicastSignaling) (sdp : String)
    (fid st : Nat) (co : Except JsError CmdResponse) :
    ((s.subscribe sdp fid st co).1).webSocket.isSome = true := by
  rw [subscribe_fst_cases]
  cases hn : s.needsConnect with
  | false => simpa using needsConnect_false_isSome s hn
  | true => simpa using (connectAwait_fst_handles s fid st).1

theorem publish_fst_webSocket_isSome (s : MillicastSignaling) (sdp : String)
    (fid st : Nat) (co : Except JsError CmdResponse) :
    ((s.publish sdp fid st co).1).webSocket.isSome = true := by
  rw [publish_fst_cases]
  cases hn : s.needsConnect with
  | false => simpa using needsConnect_false_isSome s hn
  | true => simpa using (connectAwait_fst_handles s fid st).1

theorem applyStep_preserves_handles (s : MillicastSignaling) (step : Step)
    (h : s.handlesTogether) : (s.applyStep step).handlesTogether := by
  unfold MillicastSignaling.handlesTogether at h ⊢
  cases step with
  | connectOp url fid =>
      simp only [MillicastSignaling.applyStep]
      cases hc : s.fastPathCheck with
      | some p =>
          obtain ⟨ws, tm⟩ := p
          rw [connect_fastPath s url fid ws tm hc]
          exact h
      | none =>
          rw [connect_pending s url fid hc]
          rfl
  | fireOnopen =>
      simp only [MillicastSignaling.applyStep, wsOnopen_fst]
      exact h
  | fireOnclose =>
      rfl
  | closeOp =>
      simp only [MillicastSignaling.applyStep, close_fst]
      exact h
  | subscribeOp sdp fid st co =>
      simp only [MillicastSignaling.applyStep, subscribe_fst_cases]
      cases hn : s.needsConnect with
      | false => simpa using h
      | true =>
          obtain ⟨h1, h2⟩ := connectAwait_fst_handles s fid st
          simp [h1, h2]
  | publishOp sdp fid st co =>
      simp only [MillicastSignaling.applyStep, publish_fst_cases]
      cases hn : s.needsConnect with
      | false => simpa using h
      | true =>
          obtain ⟨h1, h2⟩ := connectAwait_fst_handles s fid st
          simp [h1, h2]
  | extReadyState st =>
      simp only [MillicastSignaling.applyStep, MillicastSignaling.setSocketState]
      cases hw : s.webSocket <;> rw [hw] at h <;> simp_all

theorem runSteps_preserves_handles (s : MillicastSignaling)
    (steps : List Step) (h : s.handlesTogether) :
    (s.runSteps steps).handlesTogether := by
  induction steps generalizing s with
  | nil => exact h
  | cons st rest ih =>
      exact ih _ (applyStep_preserves_handles s st h)

/-- C4: starting from the constructor, after any sequence of operations
and transport callbacks (construction, connect, close, subscribe, publish,
onopen, onclose, environment readiness changes), `webSocket` is non-null
exactly when `transactionManager` is non-null: the two handles are created
together and cleared together. -/
theorem C4_handles_in_lockstep (streamName : Option String) (url : String)
    (steps : List Step) :
    ((MillicastSignaling.new streamName url).runSteps steps).handlesTogether :=
  runSteps_preserves_handles _ steps rfl

/-- C5: the transport-close handler resets `webSocket` and
`transactionManager` to null (the field assignments precede the emission in
its effect trace) and emits exactly one `connectionClose` notification;
and it is the only step that takes a session from a non-null socket to a
null one. -/
theorem C5_onclose_sole_disconnect (s : MillicastSignaling) (step : Step)
    (hws : s.webSocket.isSome = true)
    (hnull : (s.applyStep step).webSocket = none) :
    s.wsOnclose =
      ({ s with webSocket := none, transactionManager := none },
       [.assignWebSocket none, .assignTransactionManager none,
        .emit .connectionClose]) ∧
    emittedOf s.wsOnclose.2 = [.connectionClose] ∧
    step = .fireOnclose := by
  refine ⟨rfl, rfl, ?_⟩
  cases step with
  | connectOp url fid =>
      exfalso
      simp only [MillicastSignaling.applyStep] at hnull
      cases hc : s.fastPathCheck with
      | some p =>
          obtain ⟨ws, tm⟩ := p
          rw [connect_fastPath s url fid ws tm hc] at hnull
          rw [hnull] at hws
          simp at hws
      | none =>
          rw [connect_pending s url fid hc] at hnull
          simp at hnull
  | fireOnopen =>
      exfalso
      simp only [MillicastSignaling.applyStep, wsOnopen_fst] at hnull
      rw [hnull] at hws
      simp at hws
  | fireOnclose => rfl
  | closeOp =>
      exfalso
      simp only [MillicastSignaling.applyStep, close_fst] at hnull
      rw [hnull] at hws
      simp at hws
  | subscribeOp sdp fid st co =>
      exfalso
      have hs := subscribe_fst_webSocket_isSome s sdp fid st co
      simp only [MillicastSignaling.applyStep] at hnull
      rw [hnull] at hs
      simp at hs
  | publishOp sdp fid st co =>
      exfalso
      have hs := publish_fst_webSocket_isSome s sdp fid st co
      simp only [MillicastSignaling.applyStep] at hnull
      rw [hnull] at hs
      simp at hs
  | extReadyState st =>
      exfalso
      simp only [MillicastSignaling.applyStep,
        MillicastSignaling.setSocketState] at hnull
      cases hw : s.webSocket with
      | none =>
          rw [hw] at hws
          simp at hws
      | some ws =>
          rw [hw] at hnull
          simp at hnull

/-- Witness for C5: firing the close handler on a concrete connected
session. -/
theorem C5_onclose_sole_disconnect_witness :
    connectedSession.wsOnclose =
      ({ connectedSession with webSocket := none, transactionManager := none },
       [.assignWebSocket none, .assignTransactionManager none,
        .emit .connectionClose]) ∧
    emittedOf connectedSession.wsOnclose.2 = [.connectionClose] ∧
    Step.fireOnclose = Step.fireOnclose :=
  C5_onclose_sole_disconnect connectedSession .fireOnclose rfl rfl

theorem runCmd_eq_of_some (s : MillicastSignaling) (effs : List Effect)
    (cmdName : String) (data : CmdData) (co : Except JsError CmdResponse)
    (tm : TransactionManager) (htm : s.transactionManager = some tm) :
    s.runCmd effs cmdName data co =
      (s, effs ++ [.cmd cmdName data],
       match co with
       | .ok r => .ok r.sdp
       | .error e => .error e) := by
  unfold MillicastSignaling.runCmd
  rw [htm]
  cases co <;> rfl

theorem runCmd_eq_of_none (s : MillicastSignaling) (effs : List Effect)
    (cmdName : String) (data : CmdData) (co : Except JsError CmdResponse)
    (htm : s.transactionManager = none) :
    s.runCmd effs cmdName data co = (s, effs, .error .typeErr) := by
  unfold MillicastSignaling.runCmd
  rw [htm]

theorem connectAwait_no_cmd (s : MillicastSignaling) (fid st : Nat) :
    ((s.connectAwait fid st).2.1).filter Effect.isCmd = [] := by
  cases hc : s.fastPathCheck with
  | some p =>
      obtain ⟨ws, tm⟩ := p
      rw [connectAwait_fastPath s fid st ws tm hc]
      rfl
  | none =>
      by_cases hst : st = WebSocket.OPEN
      · subst hst
        rw [connectAwait_good s fid hc]
        rfl
      · rw [connectAwait_bad s fid st hc hst]
        rfl

theorem connectAwait_has_newWS (s : MillicastSignaling) (fid st : Nat)
    (h : s.fastPathCheck = none) :
    Effect.newWebSocketEff s.wsUrl fid ∈ (s.connectAwait fid st).2.1 := by
  by_cases hst : st = WebSocket.OPEN
  · subst hst
    rw [connectAwait_good s fid h]
    simp
  · rw [connectAwait_bad s fid st h hst]
    simp

theorem subscribe_await_ok (s : MillicastSignaling) (sdp : String)
    (fid st : Nat) (co : Except JsError CmdResponse)
    (s1 : MillicastSignaling) (effs : List Effect)
    (hn : s.needsConnect = true)
    (hca : s.connectAwait fid st = (s1, effs, none)) :
    s.subscribe sdp fid st co =
      s1.runCmd effs "view" (.view { sdp := sdp, streamId := s.streamName }) co := by
  simp only [MillicastSignaling.subscribe, hn, if_true, hca]

theorem subscribe_await_err (s : MillicastSignaling) (sdp : String)
    (fid st : Nat) (co : Except JsError CmdResponse)
    (s1 : MillicastSignaling) (effs : List Effect) (e : JsError)
    (hn : s.needsConnect = true)
    (hca : s.connectAwait fid st = (s1, effs, some e)) :
    s.subscribe sdp fid st co = (s1, effs, .error e) := by
  simp only [MillicastSignaling.subscribe, hn, if_true, hca]

theorem subscribe_false_eq (s : MillicastSignaling) (sdp : String)
    (fid st : Nat) (co : Except JsError CmdResponse)
    (hn : s.needsConnect = false) :
    s.subscribe sdp fid st co =
      s.runCmd [] "view" (.view { sdp := sdp, streamId := s.streamName }) co := by
  simp only [MillicastSignaling.subscribe, hn, Bool.false_eq_true, if_false]

theorem publish_await_ok (s : MillicastSignaling) (sdp : String)
    (fid st : Nat) (co : Except JsError CmdResponse)
    (s1 : MillicastSignaling) (effs : List Effect)
    (hn : s.needsConnect = true)
    (hca : s.connectAwait fid st = (s1, effs, none)) :
    s.publish sdp fid st co =
      s1.runCmd effs "publish"
        (.publishData { name := s.streamName, sdp := sdp, codec := "h264" }) co := by
  simp only [MillicastSignaling.publish, hn, if_true, hca]

theorem publish_await_err (s : MillicastSignaling) (sdp : String)
    (fid st : Nat) (co : Except JsError CmdResponse)
    (s1 : MillicastSignaling) (effs : List Effect) (e : JsError)
    (hn : s.needsConnect = true)
    (hca : s.connectAwait fid st = (s1, effs, some e)) :
    s.publish sdp fid st co = (s1, effs, .error e) := by
  simp only [MillicastSignaling.publish, hn, if_true, hca]

theorem publish_false_eq (s : MillicastSignaling) (sdp : String)
    (fid st : Nat) (co : Except JsError CmdResponse)
    (hn : s.needsConnect = false) :
    s.publish sdp fid st co =
      s.runCmd [] "publish"
        (.publishData { name := s.streamName, sdp := sdp, codec := "h264" }) co := by
  simp only [MillicastSignaling.publish, hn, Bool.false_eq_true, if_false]

/-- C6: a `subscribe(sdp)` call that succeeds issued exactly one executor
command, named `"view"`, with payload fields `sdp` and
`streamId = streamName`, and returned exactly the `sdp` field of the
executor's response payload. -/
theorem C6_subscribe_one_view_command (s : MillicastSignaling) (sdp : String)
    (fid st : Nat) (co : Except JsError CmdResponse) (out : String)
    (hok : (s.subscribe sdp fid st co).2.2 = .ok out) :
    (s.subscribe sdp fid st co).2.1.filter Effect.isCmd =
      [.cmd "view" (.view { sdp := sdp, streamId := s.streamName })] ∧
    ∃ r : CmdResponse, co = .ok r ∧ out = r.sdp := by
  have hnc := connectAwait_no_cmd s fid st
  cases hn : s.needsConnect with
  | true =>
      rcases hca : s.connectAwait fid st with ⟨s1, effs, oe⟩
      have hnc2 : List.filter Effect.isCmd effs = [] := by
        rw [hca] at hnc
        exact hnc
      cases oe with
      | some e =>
          rw [subscribe_await_err s sdp fid st co s1 effs e hn hca] at hok
          simp at hok
      | none =>
          cases htm : s1.transactionManager with
          | none =>
              rw [subscribe_await_ok s sdp fid st co s1 effs hn hca,
                  runCmd_eq_of_none s1 effs _ _ co htm] at hok
              simp at hok
          | some tm =>
              rw [subscribe_await_ok s sdp fid st co s1 effs hn hca,
                  runCmd_eq_of_some s1 effs _ _ co tm htm] at hok ⊢
              cases co with
              | error e => simp at hok
              | ok r =>
                  have hout : r.sdp = out := by simpa using hok
                  refine ⟨?_, r, rfl, hout.symm⟩
                  simp [List.filter_append, hnc2, Effect.isCmd]
  | false =>
      rw [subscribe_false_eq s sdp fid st co hn] at hok ⊢
      cases htm : s.transactionManager with
      | none =>
          rw [runCmd_eq_of_none s [] _ _ co htm] at hok
          simp at hok
      | some tm =>
          rw [runCmd_eq_of_some s [] _ _ co tm htm] at hok ⊢
          cases co with
          | error e => simp at hok
          | ok r =>
              have hout : r.sdp = out := by simpa using hok
              exact ⟨by simp [Effect.isCmd], r, rfl, hout.symm⟩

/-- Witness for C6: an already-connected session, executor answers with
payload whose sdp field is "answer-sdp-1". -/
theorem C6_subscribe_one_view_command_witness :
    (connectedSession.subscribe "offer-sdp-1" 9 1
        (.ok { sdp := "answer-sdp-1", tag := 0 })).2.1.filter Effect.isCmd =
      [.cmd "view" (.view { sdp := "offer-sdp-1", streamId := some "cam1" })] ∧
    ∃ r : CmdResponse, (.ok { sdp := "answer-sdp-1", tag := 0 } :
        Except JsError CmdResponse) = .ok r ∧ "answer-sdp-1" = r.sdp :=
  C6_subscribe_one_view_command connectedSession "offer-sdp-1" 9 1
    (.ok { sdp := "answer-sdp-1", tag := 0 }) "answer-sdp-1" rfl

/-- C7: a `publish(sdp)` call that succeeds issued exactly one executor
command, named `"publish"`, with payload fields `name = streamName`, `sdp`
and `codec = "h264"`, and returned exactly the `sdp` field of the
executor's response payload. -/
theorem C7_publish_one_publish_command (s : MillicastSignaling) (sdp : String)
    (fid st : Nat) (co : Except JsError CmdResponse) (out : String)
    (hok : (s.publish sdp fid st co).2.2 = .ok out) :
    (s.publish sdp fid st co).2.1.filter Effect.isCmd =
      [.cmd "publish"
        (.publishData { name := s.streamName, sdp := sdp, codec := "h264" })] ∧
    ∃ r : CmdResponse, co = .ok r ∧ out = r.sdp := by
  have hnc := connectAwait_no_cmd s fid st
  cases hn : s.needsConnect with
  | true =>
      rcases hca : s.connectAwait fid st with ⟨s1, effs, oe⟩
      have hnc2 : List.filter Effect.isCmd effs = [] := by
        rw [hca] at hnc
        exact hnc
      cases oe with
      | some e =>
          rw [publish_await_err s sdp fid st co s1 effs e hn hca] at hok
          simp at hok
      | none =>
          cases htm : s1.transactionManager with
          | none =>
              rw [publish_await_ok s sdp fid st co s1 effs hn hca,
                  runCmd_eq_of_none s1 effs _ _ co htm] at hok
              simp at hok
          | some tm =>
              rw [publish_await_ok s sdp fid st co s1 effs hn hca,
                  runCmd_eq_of_some s1 effs _ _ co tm htm] at hok ⊢
              cases co with
              | error e => simp at hok
              | ok r =>
                  have hout : r.sdp = out := by simpa using hok
                  refine ⟨?_, r, rfl, hout.symm⟩
                  simp [List.filter_append, hnc2, Effect.isCmd]
  | false =>
      rw [publish_false_eq s sdp fid st co hn] at hok ⊢
      cases htm : s.transactionManager with
      | none =>
          rw [runCmd_eq_of_none s [] _ _ co htm] at hok
          simp at hok
      | some tm =>
          rw [runCmd_eq_of_some s [] _ _ co tm htm] at hok ⊢
          cases co with
          | error e => simp at hok
          | ok r =>
              have hout : r.sdp = out := by simpa using hok
              exact ⟨by simp [Effect.isCmd], r, rfl, hout.symm⟩

/-- Witness for C7: an already-connected session, executor answers with
payload whose sdp field is "answer-sdp-2". -/
theorem C7_publish_one_publish_command_witness :
    (connectedSession.publish "offer-sdp-2" 9 1
        (.ok { sdp := "answer-sdp-2", tag := 0 })).2.1.filter Effect.isCmd =
      [.cmd "publish"
        (.publishData
          { name := some "cam1", sdp := "offer-sdp-2", codec := "h264" })] ∧
    ∃ r : CmdResponse, (.ok { sdp := "answer-sdp-2", tag := 0 } :
        Except JsError CmdResponse) = .ok r ∧ "answer-sdp-2" = r.sdp :=
  C7_publish_one_publish_command connectedSession "offer-sdp-2" 9 1
    (.ok { sdp := "answer-sdp-2", tag := 0 }) "answer-sdp-2" rfl

theorem subscribe_connects_first (s : MillicastSignaling) (sdp : String)
    (fid st : Nat) (co : Except JsError CmdResponse)
    (hn : s.needsConnect = true) :
    ∃ pre post, (s.subscribe sdp fid st co).2.1 = pre ++ post ∧
      Effect.newWebSocketEff s.wsUrl fid ∈ pre ∧
      pre.filter Effect.isCmd = [] := by
  have hc := fastPathCheck_none_of_needsConnect s hn
  have hmem := connectAwait_has_newWS s fid st hc
  have hnc := connectAwait_no_cmd s fid st
  rcases hca : s.connectAwait fid st with ⟨s1, effs, oe⟩
  rw [hca] at hmem hnc
  have hmem2 : Effect.newWebSocketEff s.wsUrl fid ∈ effs := hmem
  have hnc2 : List.filter Effect.isCmd effs = [] := hnc
  cases oe with
  | some e =>
      rw [subscribe_await_err s sdp fid st co s1 effs e hn hca]
      exact ⟨effs, [], by simp, hmem2, hnc2⟩
  | none =>
      cases htm : s1.transactionManager with
      | none =>
          rw [subscribe_await_ok s sdp fid st co s1 effs hn hca,
              runCmd_eq_of_none s1 effs _ _ co htm]
          exact ⟨effs, [], by simp, hmem2, hnc2⟩
      | some tm =>
          rw [subscribe_await_ok s sdp fid st co s1 effs hn hca,
              runCmd_eq_of_some s1 effs _ _ co tm htm]
          exact ⟨effs,
            [.cmd "view" (.view { sdp := sdp, streamId := s.streamName })],
            rfl, hmem2, hnc2⟩

theorem publish_connects_first (s : MillicastSignaling) (sdp : String)
    (fid st : Nat) (co : Except JsError CmdResponse)
    (hn : s.needsConnect = true) :
    ∃ pre post, (s.publish sdp fid st co).2.1 = pre ++ post ∧
      Effect.newWebSocketEff s.wsUrl fid ∈ pre ∧
      pre.filter Effect.isCmd = [] := by
  have hc := fastPathCheck_none_of_needsConnect s hn
  have hmem := connectAwait_has_newWS s fid st hc
  have hnc := connectAwait_no_cmd s fid st
  rcases hca : s.connectAwait fid st with ⟨s1, effs, oe⟩
  rw [hca] at hmem hnc
  have hmem2 : Effect.newWebSocketEff s.wsUrl fid ∈ effs := hmem
  have hnc2 : List.filter Effect.isCmd effs = [] := hnc
  cases oe with
  | some e =>
      rw [publish_await_err s sdp fid st co s1 effs e hn hca]
      exact ⟨effs, [], by simp, hmem2, hnc2⟩
  | none =>
      cases htm : s1.transactionManager with
      | none =>
          rw [publish_await_ok s sdp fid st co s1 effs hn hca,
              runCmd_eq_of_none s1 effs _ _ co htm]
          exact ⟨effs, [], by simp, hmem2, hnc2⟩
      | some tm =>
          rw [publish_await_ok s sdp fid st co s1 effs hn hca,
              runCmd_eq_of_some s1 effs _ _ co tm htm]
          exact ⟨effs,
            [.cmd "publish" (.publishData
              { name := s.streamName, sdp := sdp, codec := "h264" })],
            rfl, hmem2, hnc2⟩

theorem subscribe_connect_failure (s : MillicastSignaling) (sdp : String)
    (fid st : Nat) (co : Except JsError CmdResponse)
    (hn : s.needsConnect = true) (hst : st ≠ WebSocket.OPEN) :
    (s.subscribe sdp fid st co).2.2 = .error (.connectionStateError st) ∧
    (s.subscribe sdp fid st co).2.1.filter Effect.isCmd = [] := by
  have hc := fastPathCheck_none_of_needsConnect s hn
  have hca := connectAwait_bad s fid st hc hst
  rw [subscribe_await_err s sdp fid st co _ _ _ hn hca]
  exact ⟨rfl, by simp [Effect.isCmd]⟩

theorem publish_connect_failure (s : MillicastSignaling) (sdp : String)
    (fid st : Nat) (co : Except JsError CmdResponse)
    (hn : s.needsConnect = true) (hst : st ≠ WebSocket.OPEN) :
    (s.publish sdp fid st co).2.2 = .error (.connectionStateError st) ∧
    (s.publish sdp fid st co).2.1.filter Effect.isCmd = [] := by
  have hc := fastPathCheck_none_of_needsConnect s hn
  have hca := connectAwait_bad s fid st hc hst
  rw [publish_await_err s sdp fid st co _ _ _ hn hca]
  exact ⟨rfl, by simp [Effect.isCmd]⟩

theorem subscribe_propagates_cmd_error (s : MillicastSignaling) (sdp : String)
    (fid st : Nat) (e : JsError)
    (hcmd : (s.subscribe sdp fid st (.error e)).2.1.filter Effect.isCmd ≠ []) :
    (s.subscribe sdp fid st (.error e)).2.2 = .error e := by
  cases hn : s.needsConnect with
  | true =>
      rcases hca : s.connectAwait fid st with ⟨s1, effs, oe⟩
      have hnc : List.filter Effect.isCmd effs = [] := by
        have h0 := connectAwait_no_cmd s fid st
        rw [hca] at h0
        exact h0
      cases oe with
      | some e2 =>
          rw [subscribe_await_err s sdp fid st (.error e) s1 effs e2 hn hca] at hcmd
          exact absurd hnc hcmd
      | none =>
          cases htm : s1.transactionManager with
          | none =>
              rw [subscribe_await_ok s sdp fid st (.error e) s1 effs hn hca,
                  runCmd_eq_of_none s1 effs _ _ _ htm] at hcmd
              exact absurd hnc hcmd
          | some tm =>
              rw [subscribe_await_ok s sdp fid st (.error e) s1 effs hn hca,
                  runCmd_eq_of_some s1 effs _ _ _ tm htm]
  | false =>
      cases htm : s.transactionManager with
      | none =>
          rw [subscribe_false_eq s sdp fid st (.error e) hn,
              runCmd_eq_of_none s [] _ _ _ htm] at hcmd
          simp at hcmd
      | some tm =>
          rw [subscribe_false_eq s sdp fid st (.error e) hn,
              runCmd_eq_of_some s [] _ _ _ tm htm]

theorem publish_propagates_cmd_error (s : MillicastSignaling) (sdp : String)
    (fid st : Nat) (e : JsError)
    (hcmd : (s.publish sdp fid st (.error e)).2.1.filter Effect.isCmd ≠ []) :
    (s.publish sdp fid st (.error e)).2.2 = .error e := by
  cases hn : s.needsConnect with
  | true =>
      rcases hca : s.connectAwait fid st with ⟨s1, effs, oe⟩
      have hnc : List.filter Effect.isCmd effs = [] := by
        have h0 := connectAwait_no_cmd s fid st
        rw [hca] at h0
        exact h0
      cases oe with
      | some e2 =>
          rw [publish_await_err s sdp fid st (.error e) s1 effs e2 hn hca] at hcmd
          exact absurd hnc hcmd
      | none =>
          cases htm : s1.transactionManager with
          | none =>
              rw [publish_await_ok s sdp fid st (.error e) s1 effs hn hca,
                  runCmd_eq_of_none s1 effs _ _ _ htm] at hcmd
              exact absurd hnc hcmd
          | some tm =>
              rw [publish_await_ok s sdp fid st (.error e) s1 effs hn hca,
                  runCmd_eq_of_some s1 effs _ _ _ tm htm]
  | false =>
      cases htm : s.transactionManager with
      | none =>
          rw [publish_false_eq s sdp fid st (.error e) hn,
              runCmd_eq_of_none s [] _ _ _ htm] at hcmd
          simp at hcmd
      | some tm =>
          rw [publish_false_eq s sdp fid st (.error e) hn,
              runCmd_eq_of_some s [] _ _ _ tm htm]

theorem subscribe_at_most_one_cmd (s : MillicastSignaling) (sdp : String)
    (fid st : Nat) (co : Except JsError CmdResponse) :
    ((s.subscribe sdp fid st co).2.1.filter Effect.isCmd).length ≤ 1 := by
  cases hn : s.needsConnect with
  | true =>
      rcases hca : s.connectAwait fid st with ⟨s1, effs, oe⟩
      have hnc : List.filter Effect.isCmd effs = [] := by
        have h0 := connectAwait_no_cmd s fid st
        rw [hca] at h0
        exact h0
      cases oe with
      | some e =>
          rw [subscribe_await_err s sdp fid st co s1 effs e hn hca]
          simp only []
          simp [hnc]
      | none =>
          cases htm : s1.transactionManager with
          | none =>
              rw [subscribe_await_ok s sdp fid st co s1 effs hn hca,
                  runCmd_eq_of_none s1 effs _ _ co htm]
              simp only []
              simp [hnc]
          | some tm =>
              rw [subscribe_await_ok s sdp fid st co s1 effs hn hca,
                  runCmd_eq_of_some s1 effs _ _ co tm htm]
              simp [List.filter_append, hnc, Effect.isCmd]
  | false =>
      cases htm : s.transactionManager with
      | none =>
          rw [subscribe_false_eq s sdp fid st co hn,
              runCmd_eq_of_none s [] _ _ co htm]
          simp
      | some tm =>
          rw [subscribe_false_eq s sdp fid st co hn,
              runCmd_eq_of_some s [] _ _ co tm htm]
          simp [Effect.isCmd]

theorem publish_at_most_one_cmd (s : MillicastSignaling) (sdp : String)
    (fid st : Nat) (co : Except JsError CmdResponse) :
    ((s.publish sdp fid st co).2.1.filter Effect.isCmd).length ≤ 1 := by
  cases hn : s.needsConnect with
  | true =>
      rcases hca : s.connectAwait fid st with ⟨s1, effs, oe⟩
      have hnc : List.filter Effect.isCmd effs = [] := by
        have h0 := connectAwait_no_cmd s fid st
        rw [hca] at h0
        exact h0
      cases oe with
      | some e =>
          rw [publish_await_err s sdp fid st co s1 effs e hn hca]
          simp only []
          simp [hnc]
      | none =>
          cases htm : s1.transactionManager with
          | none =>
              rw [publish_await_ok s sdp fid st co s1 effs hn hca,
                  runCmd_eq_of_none s1 effs _ _ co htm]
              simp only []
              simp [hnc]
          | some tm =>
              rw [publish_await_ok s sdp fid st co s1 effs hn hca,
                  runCmd_eq_of_some s1 effs _ _ co tm htm]
              simp [List.filter_append, hnc, Effect.isCmd]
  | false =>
      cases htm : s.transactionManager with
      | none =>
          rw [publish_false_eq s sdp fid st co hn,
              runCmd_eq_of_none s [] _ _ co htm]
          simp
      | some tm =>
          rw [publish_false_eq s sdp fid st co hn,
              runCmd_eq_of_some s [] _ _ co tm htm]
          simp [Effect.isCmd]

/-- C8: when `webSocket` is null or not OPEN, `subscribe`/`publish` first
perform `connect` with the session's stored url and await it before
issuing their command (the connect effect lies in a command-free prefix of
the trace); a connect rejection is propagated as the operation's error with
no command issued; a failure of the issued command is propagated unchanged;
and at most one command is ever issued (no retry). -/
theorem C8_connect_first_and_propagate (s : MillicastSignaling) (sdp : String)
    (fid st : Nat) (co : Except JsError CmdResponse) :
    (s.needsConnect = true →
      (∃ pre post, (s.subscribe sdp fid st co).2.1 = pre ++ post ∧
        Effect.newWebSocketEff s.wsUrl fid ∈ pre ∧
        pre.filter Effect.isCmd = []) ∧
      (∃ pre post, (s.publish sdp fid st co).2.1 = pre ++ post ∧
        Effect.newWebSocketEff s.wsUrl fid ∈ pre ∧
        pre.filter Effect.isCmd = [])) ∧
    (s.needsConnect = true → st ≠ WebSocket.OPEN →
      (s.subscribe sdp fid st co).2.2 = .error (.connectionStateError st) ∧
      (s.subscribe sdp fid st co).2.1.filter Effect.isCmd = [] ∧
      (s.publish sdp fid st co).2.2 = .error (.connectionStateError st) ∧
      (s.publish sdp fid st co).2.1.filter Effect.isCmd = []) ∧
    (∀ e : JsError, co = .error e →
      ((s.subscribe sdp fid st co).2.1.filter Effect.isCmd ≠ [] →
        (s.subscribe sdp fid st co).2.2 = .error e) ∧
      ((s.publish sdp fid st co).2.1.filter Effect.isCmd ≠ [] →
        (s.publish sdp fid st co).2.2 = .error e)) ∧
    ((s.subscribe sdp fid st co).2.1.filter Effect.isCmd).length ≤ 1 ∧
    ((s.publish sdp fid st co).2.1.filter Effect.isCmd).length ≤ 1 := by
  refine ⟨fun hn => ⟨subscribe_connects_first s sdp fid st co hn,
                     publish_connects_first s sdp fid st co hn⟩,
          fun hn hst => ?_,
          fun e he => ?_,
          subscribe_at_most_one_cmd s sdp fid st co,
          publish_at_most_one_cmd s sdp fid st co⟩
  · obtain ⟨h1, h2⟩ := subscribe_connect_failure s sdp fid st co hn hst
    obtain ⟨h3, h4⟩ := publish_connect_failure s sdp fid st co hn hst
    exact ⟨h1, h2, h3, h4⟩
  · subst he
    exact ⟨subscribe_propagates_cmd_error s sdp fid st e,
           publish_propagates_cmd_error s sdp fid st e⟩

/-- Witness for C8: from the fresh constructor state a bad open state
rejects both operations with the connect error and no command; on a
connected session an executor error is propagated unchanged; and the
connect effect precedes any command. -/
theorem C8_connect_first_and_propagate_witness :
    ((freshSession.subscribe "o" 0 WebSocket.CLOSING
        (.error (.executorError 3))).2.2 =
      .error (.connectionStateError WebSocket.CLOSING)) ∧
    ((freshSession.publish "o" 0 WebSocket.CLOSING
        (.error (.executorError 3))).2.2 =
      .error (.connectionStateError WebSocket.CLOSING)) ∧
    ((connectedSession.subscribe "o" 9 1 (.error (.executorError 3))).2.2 =
      .error (.executorError 3)) ∧
    ((connectedSession.publish "o" 9 1 (.error (.executorError 3))).2.2 =
      .error (.executorError 3)) ∧
    (∃ pre post,
      (freshSession.subscribe "o" 0 WebSocket.CLOSING
          (.error (.executorError 3))).2.1 = pre ++ post ∧
      Effect.newWebSocketEff "ws://host/ws" 0 ∈ pre ∧
      pre.filter Effect.isCmd = []) := by
  have h1 := C8_connect_first_and_propagate freshSession "o" 0
    WebSocket.CLOSING (.error (.executorError 3))
  have h2 := C8_connect_first_and_propagate connectedSession "o" 9 1
    (.error (.executorError 3))
  have hb := h1.2.1 rfl (by decide)
  have hp := h2.2.2.1 (.executorError 3) rfl
  refine ⟨hb.1, hb.2.2.1, hp.1 (by decide), hp.2 (by decide), ?_⟩
  exact (h1.1 rfl).1
